import Mathlib

set_option autoImplicit false

/-!
Verification of the LarderAPI client library (src/LarderAPI.py) and its backup
pipeline (src/LarderBackup.py) against the natural-language specification.

The Python code is shallowly embedded: pure computations become Lean functions,
HTTP traffic is represented by an explicit list of network events produced by
each operation, Python exceptions become `Except PyErr`, and the paginated
`while next is not None` loops are run with explicit fuel (each loop iteration
consumes one unit; a well-formed page chain of length n needs exactly n units).
-/

/-- Python exceptions raised by the embedded code. -/
inductive PyErr where
  | attributeError (name : String)
  | typeError (msg : String)
  | valueError (msg : String)
  | emptyObject (msg : String)
  | ioError (msg : String)
  | notImplementedError (msg : String)
  | exceptionErr (msg : String)
  | jsonDecodeError
  deriving Repr, DecidableEq

/-- One HTTP request issued by the client (the observable network trace). -/
inductive NetEvent where
  | get (url : String)
  | post (url : String)
  | del (url : String)
  deriving Repr, DecidableEq

/-- `API_URL` constant (LarderAPI.py line 21). -/
def API_URL : String := "https://larder.io/api/1/"

/-- `LINK_MAP` dictionary (LarderAPI.py lines 23-25); `Dict.get` returns
`None` for an unknown class name. -/
def LINK_MAP : String → Option String := fun s =>
  if s = "Folder" then some "folders"
  else if s = "Bookmark" then some "links"
  else if s = "Tag" then some "tags"
  else none

/-- `RESTObject._get_qualified_apiurl` (lines 41-44): an f-string renders a
`None` lookup result as the text "None". -/
def RESTObject.qualifiedApiUrl (cls : String) : String :=
  API_URL ++ "@me/" ++ (LINK_MAP cls).getD "None" ++ "/"

/-- One decoded JSON page of a paginated listing: a `results` array of raw
records and a `next` cursor (a follow-up URL, modelled as an index into the
server's page table, or null). -/
structure Page (α : Type) where
  results : List α
  next : Option Nat
  deriving Repr, DecidableEq

/-- The page a server returns for an unknown URL in the total-server model. -/
def dfltPage {α : Type} : Page α := ⟨[], none⟩

/-- View a finite page table as a total server: URL index to page. -/
def serverOf {α : Type} (pages : List (Page α)) : Nat → Page α :=
  fun i => pages.getD i dfltPage

/-- Embedding of the pagination loop shared by `RESTObject.get_all`
(LarderAPI.py lines 76-88) and `Folder.get_bookmarks` (lines 154-169):
while the cursor is not null, GET the page, turn each raw record into a typed
object with `mk` (`cls(**f)` / `Bookmark(**bm)`), append the typed records to
the accumulator, and follow the `next` cursor.  Returns the accumulated typed
records together with the list of page URLs fetched, in fetch order (one GET
per visited page; the `sleep(1)` throttle has no effect on the data).  The
fuel argument bounds the number of iterations; the loop itself has no bound. -/
def fetchLoop {α β : Type} (server : Nat → Page α) (mk : α → β) :
    Nat → Option Nat → List β × List Nat
  | _, none => ([], [])
  | 0, some _ => ([], [])
  | fuel + 1, some u =>
    let p := server u
    let rest := fetchLoop server mk fuel p.next
    (p.results.map mk ++ rest.1, u :: rest.2)

/-- The consecutive indices `[k, k+1, ..., k+n-1]`. -/
def idxFrom : Nat → Nat → List Nat
  | _, 0 => []
  | k, n + 1 => k :: idxFrom (k + 1) n

/-- The typed records of pages `k, k+1, ..., k+n-1` of a page table,
concatenated in page order and, within a page, in the order received. -/
def resultsFrom {α β : Type} (mk : α → β) (pages : List (Page α)) :
    Nat → Nat → List β
  | _, 0 => []
  | k, n + 1 => (pages.getD k dfltPage).results.map mk ++ resultsFrom mk pages (k + 1) n

/-- A well-formed paginated response: page `i` points to page `i+1` and the
last page carries a null `next` cursor. -/
def pageChain {α : Type} (pages : List (Page α)) : Prop :=
  ∀ i, i < pages.length →
    (pages.getD i dfltPage).next =
      if i + 1 < pages.length then some (i + 1) else none

/-- `Tag` dataclass (LarderAPI.py lines 196-212): fields in declaration order
`id`, `created`, `modified`, `name`, `color`; all default to `None`. -/
structure Tag where
  id : Option String := none
  created : Option String := none
  modified : Option String := none
  name : Option String := none
  color : Option String := none
  deriving Repr, DecidableEq

/-- `Bookmark` dataclass (lines 177-193); `__post_init__` converts raw tag
dicts into `Tag` objects, so `tags` is modelled as already typed.  The open
`meta` dict is modelled as a key/value list. -/
structure Bookmark where
  id : Option String := none
  created : Option String := none
  modified : Option String := none
  url : Option String := none
  title : Option String := none
  description : Option String := none
  domain : Option String := none
  tags : List Tag := []
  meta : List (String × String) := []
  deriving Repr, DecidableEq

/-- `Folder` dataclass (lines 107-174).  The raw `folders` JSON list is kept
opaque; `links` is the server-reported bookmark count; `_fetched` is the
lazy-loading flag (written `fetched` here). -/
structure Folder where
  id : Option String := none
  created : Option String := none
  modified : Option String := none
  name : Option String := none
  color : Option String := none
  icon : Option String := none
  parent : Option String := none
  links : Nat := 0
  folders : List String := []
  bookmarks : List Bookmark := []
  fetched : Bool := false
  deriving Repr, DecidableEq

/-- The module-level `_FOLDERCACHE` dict (line 28), keyed by whatever
`self.id` holds; an association list with first-match lookup, insertion by
prepending (observably the Python dict assignment). -/
def FolderCache : Type := List (Option String × Folder)

/-- Dict lookup `_FOLDERCACHE.get(key)` (first match wins, like the most
recent dict assignment). -/
def cacheLookup : FolderCache → Option String → Option Folder
  | [], _ => none
  | (k, v) :: rest, key => if k = key then some v else cacheLookup rest key

/-- `RESTObject.save`'s target URL (lines 58-72): Python's `if not self.id`
treats both `None` and the empty string as "no id" (create), anything else as
update. -/
def RESTObject.saveUrl (cls : String) (id : Option String) : String :=
  match id with
  | none => RESTObject.qualifiedApiUrl cls ++ "add/"
  | some i =>
    if i = "" then RESTObject.qualifiedApiUrl cls ++ "add/"
    else RESTObject.qualifiedApiUrl cls ++ i ++ "/edit/"

/-- `RESTObject.save` (lines 58-74), generic over the entity type: POST the
instance to the add/edit URL, then copy every key of the decoded response
onto the instance (`setattr` loop, given by `setF`).  `server` models
`HttpInterface.post(...).json()`: either the decoded response fields or the
`IOError` post raises on a non-201 status.  The POST event is recorded in
both cases. -/
def RESTObject.save {α : Type} (cls : String) (getId : α → Option String)
    (setF : α → String × String → α)
    (server : String → Except PyErr (List (String × String))) (x : α) :
    Except PyErr α × List NetEvent :=
  let url := RESTObject.saveUrl cls (getId x)
  match server url with
  | .error e => (.error e, [.post url])
  | .ok fields => (.ok (fields.foldl setF x), [.post url])

/-- `RESTObject.delete` (lines 46-49), generic over the entity type: no-op
when `self.id is None`, otherwise DELETE the instance URL;
`HttpInterface.delete` (lines 255-262) raises `IOError` unless the response
status is 204.  The instance itself is never mutated. -/
def RESTObject.delete {α : Type} (cls : String) (getId : α → Option String)
    (status : String → Nat) (x : α) :
    α × Except PyErr Unit × List NetEvent :=
  match getId x with
  | none => (x, .ok (), [])
  | some i =>
    let url := RESTObject.qualifiedApiUrl cls ++ i ++ "/delete/"
    if status url = 204 then (x, .ok (), [.del url])
    else (x, .error (.ioError ("Deletion operation failed, " ++ url)), [.del url])

/-- The `setattr(self, key, value)` loop of `RESTObject.save` restricted to
`Tag`'s dataclass fields (string-valued response keys; unknown keys would
just add new attributes and are dropped here). -/
def Tag.setField (t : Tag) : String × String → Tag
  | ("id", v) => { t with id := some v }
  | ("created", v) => { t with created := some v }
  | ("modified", v) => { t with modified := some v }
  | ("name", v) => { t with name := some v }
  | ("color", v) => { t with color := some v }
  | _ => t

/-- `Tag.save` (lines 206-209): a nameless tag is rejected with `ValueError`
before any network traffic; otherwise the normal `RESTObject.save` path
runs. -/
def Tag.save (server : String → Except PyErr (List (String × String)))
    (t : Tag) : Except PyErr Tag × List NetEvent :=
  if t.name = none then
    (.error (.valueError "You cannot save a tag without a name"), [])
  else RESTObject.save "Tag" Tag.id Tag.setField server t

/-- `Tag.load` (lines 211-212): `raise NotImplemented(...)`.  `NotImplemented`
is a builtin constant, not an exception class; calling it raises
`TypeError: 'NotImplementedType' object is not callable`, so the descriptive
message in the source is never delivered.  No HTTP request is made. -/
def Tag.load (_t : Tag) : Except PyErr Unit × List NetEvent :=
  (.error (.typeError "NotImplementedType object is not callable"), [])

/-- `Bookmark.load` (lines 191-193): same `raise NotImplemented(...)` slip as
`Tag.load`; evaluating the raise expression itself raises `TypeError`, with
no HTTP request. -/
def Bookmark.load (_b : Bookmark) : Except PyErr Unit × List NetEvent :=
  (.error (.typeError "NotImplementedType object is not callable"), [])

/-- The `setattr` loop of `RESTObject.save` restricted to `Folder`'s
string-valued dataclass fields. -/
def Folder.setField (f : Folder) : String × String → Folder
  | ("id", v) => { f with id := some v }
  | ("created", v) => { f with created := some v }
  | ("modified", v) => { f with modified := some v }
  | ("name", v) => { f with name := some v }
  | ("color", v) => { f with color := some v }
  | ("icon", v) => { f with icon := some v }
  | ("parent", v) => { f with parent := some v }
  | _ => f

/-- `Folder.get_all` (lines 133-139): runs the inherited paginated fetch
(`super().get_all()`, with `Folder(**f)` modelled as the identity on already
typed records), then executes `_FOLDERCACHE = folder_instances` — which, with
no `global` declaration, binds a function-local name and leaves the module
cache untouched — and returns `copy(folder_instances)`, a shallow list copy
with the same elements. -/
def Folder.get_all (server : Nat → Page Folder) (fuel : Nat)
    (cache : FolderCache) : List Folder × FolderCache :=
  ((fetchLoop server (fun f => f) fuel (some 0)).1, cache)

/-- `Folder.load` (lines 141-147): on a cache miss (including any id never
saved in this process) it raises `EmptyObjectException`.  On a cache hit the
copy loop runs `getattr(cached_instance, field)` with the dataclass `Field`
object instead of its name, which raises `TypeError`; the hit path can never
complete. -/
def Folder.load (cache : FolderCache) (f : Folder) : Except PyErr Folder :=
  match cacheLookup cache f.id with
  | none => .error (.emptyObject "Cannot load an object without an ID")
  | some _ => .error (.typeError "attribute name must be string")

/-- `Folder.save` (lines 149-152): the inherited save runs first; only if it
returns does `_FOLDERCACHE[self.id] = self` store the updated instance under
its (possibly server-assigned) id. -/
def Folder.save (server : String → Except PyErr (List (String × String)))
    (cache : FolderCache) (f : Folder) :
    Except PyErr Folder × FolderCache × List NetEvent :=
  match RESTObject.save "Folder" Folder.id Folder.setField server f with
  | (.error e, evs) => (.error e, cache, evs)
  | (.ok f2, evs) => (.ok f2, ((f2.id, f2) :: cache : FolderCache), evs)

/-- `Folder.get_bookmarks` (lines 154-169): if `_fetched` is set, return the
cached list with no network traffic; otherwise reset `bookmarks`, run the
pagination loop from the folder's own URL (index 0 of the folder-scoped page
table), store the result, set `_fetched`, and return it.  The triple is
(returned list, updated folder, URLs fetched). -/
def Folder.get_bookmarks (server : Nat → Page Bookmark) (fuel : Nat)
    (f : Folder) : List Bookmark × Folder × List Nat :=
  if f.fetched then (f.bookmarks, f, [])
  else
    let r := fetchLoop server (fun bm => bm) fuel (some 0)
    (r.1, { f with bookmarks := r.1, fetched := true }, r.2)

/-- `Folder.refresh_bookmarks` (lines 171-174): clear `_fetched`, then
reload via `get_bookmarks`. -/
def Folder.refresh_bookmarks (server : Nat → Page Bookmark) (fuel : Nat)
    (f : Folder) : List Bookmark × Folder × List Nat :=
  Folder.get_bookmarks server fuel { f with fetched := false }

/-- Supported authentication mechanisms (`AuthMode`, lines 220-223). -/
inductive AuthMode where
  | TOKEN
  | OAUTH
  deriving Repr, DecidableEq

/-- `HttpInterface.init` (lines 231-237): OAuth is rejected with
`NotImplementedError`; otherwise the token is stored (returned here). -/
def HttpInterface.init (token : String) (mode : AuthMode) :
    Except PyErr String :=
  match mode with
  | .OAUTH => .error (.notImplementedError "OAuth is not supported yet.")
  | .TOKEN => .ok token

/-- An HTTP response as seen by the client: a status code and a body that
either decodes to a JSON value of type `J` or is undecodable (`none`). -/
structure HttpResponse (J : Type) where
  status : Nat
  jsonBody : Option J
  deriving Repr, DecidableEq

/-- `requests.Response.json()`: the decoded value, or the decode exception
for an unparsable body.  It does not look at the status code. -/
def Response.json {J : Type} (r : HttpResponse J) : Except PyErr J :=
  match r.jsonBody with
  | some j => .ok j
  | none => .error .jsonDecodeError

/-- `HttpInterface.build_headers` (lines 239-244): raises unless a token is
configured (`if not HttpInterface.token` — `None` and the empty string are
both falsy); the header scheme name depends on the auth mode. -/
def HttpInterface.build_headers (mode : AuthMode) (token : Option String) :
    Except PyErr (List (String × String)) :=
  let token_name := match mode with | .OAUTH => "Bearer" | .TOKEN => "Token"
  match token with
  | none =>
    .error (.exceptionErr "Call LarderAPI.init(token) before performing other operations")
  | some t =>
    if t = "" then
      .error (.exceptionErr "Call LarderAPI.init(token) before performing other operations")
    else .ok [("Authorization", token_name ++ " " ++ t)]

/-- `HttpInterface.get` (lines 246-253): build the auth headers, then return
`requests.get(url, headers=headers).json()`.  `net` models the transport
(the response the remote returns for a URL).  Unlike `delete` (status 204
check) and `post` (status 201 check), `get` never inspects the response
status code. -/
def HttpInterface.get (J : Type) (mode : AuthMode) (token : Option String)
    (net : String → HttpResponse J) (url : String) : Except PyErr J :=
  match HttpInterface.build_headers mode token with
  | .error e => .error e
  | .ok _ => Response.json (net url)

/-- Python `str(...)` as applied by `str.format` to a possibly-`None`
attribute: `None` renders as the text "None". -/
def pyStr : Option String → String
  | none => "None"
  | some s => s

/-- Python's ordinal (code-point lexicographic) string comparison `a <= b`,
on the underlying character lists. -/
def charsLe : List Char → List Char → Bool
  | [], _ => true
  | _ :: _, [] => false
  | a :: as, b :: bs =>
    if a.toNat < b.toNat then true
    else if b.toNat < a.toNat then false
    else charsLe as bs

/-- Python `a <= b` on strings: ordinal comparison of the code-point
sequences. -/
def strLe (a b : String) : Bool := charsLe a.data b.data

/-- The comparison used by `sorted(..., key=attrgetter("title"))` on the
`title` attribute.  Python raises `TypeError` when comparing `None` with a
string; the embedding totalises the order with `None` least, which agrees
with CPython on every list whose titles are all strings (the only case the
serializer is given). -/
def titleLe : Option String → Option String → Bool
  | none, _ => true
  | some _, none => false
  | some a, some b => strLe a b

/-- Insert a bookmark into an already sorted list, before the first entry
whose title is not smaller: the canonical stable insertion. -/
def insertByTitle (b : Bookmark) : List Bookmark → List Bookmark
  | [] => [b]
  | c :: cs =>
    if titleLe b.title c.title then b :: c :: cs else c :: insertByTitle b cs

/-- `sorted(folder_instance.bookmarks, key=attrgetter("title"))`
(LarderBackup.py line 59).  CPython's sort is stable; insertion sort is the
canonical stable sort, so it computes the same list. -/
def sortByTitle : List Bookmark → List Bookmark
  | [] => []
  | b :: bs => insertByTitle b (sortByTitle bs)

/-- Ascending by title (ordinal order) between adjacent entries. -/
def titleSorted (l : List Bookmark) : Prop :=
  l.Pairwise (fun a b => titleLe a.title b.title = true)

/-- `OUTPUT_FOLDER_HEADER.format(...)` as written on LarderBackup.py line 56:
the `<DT><H3 ...>` entry tag followed by the nested `<DL><p>` open tag, with
`ADD_DATE`/`LAST_MODIFIED` filled with `int(..._date.timestamp())` (the
epoch-second integers, supplied by `ts`) and the folder's display name. -/
def OUTPUT_FOLDER_HEADER_line (ts : Option String → Int) (f : Folder) : String :=
  "<DT><H3 ADD_DATE=\"" ++ toString (ts f.created) ++ "\" LAST_MODIFIED=\""
    ++ toString (ts f.modified) ++ "\">" ++ pyStr f.name ++ "</H3>\n<DL><p>\n"

/-- `OUTPUT_BM.format(...)` as written on LarderBackup.py lines 60-63: one
anchor line per bookmark. -/
def OUTPUT_BM_line (ts : Option String → Int) (bm : Bookmark) : String :=
  "<DT><A HREF=\"" ++ pyStr bm.url ++ "\" ADD_DATE=\"" ++ toString (ts bm.created)
    ++ "\" LAST_MODIFIED=\"" ++ toString (ts bm.modified) ++ "\">"
    ++ pyStr bm.title ++ "</A>\n"

/-- `OUTPUT_FOLDER_FOOTER` (LarderBackup.py lines 29-30). -/
def OUTPUT_FOLDER_FOOTER : String := "</DL><p>\n"

/-- `_dump_folder_to_output` (LarderBackup.py lines 53-65) as the sequence of
`writer.write` calls it performs: the folder header template, then one
bookmark template per bookmark in title-sorted order, then the folder
footer.  `ts` abstracts `int(_json_to_pydate(s).timestamp())`, the
epoch-second rendering of a JSON timestamp string. -/
def _dump_folder_to_output (ts : Option String → Int) (f : Folder) :
    List String :=
  OUTPUT_FOLDER_HEADER_line ts f
    :: ((sortByTitle f.bookmarks).map (OUTPUT_BM_line ts) ++ [OUTPUT_FOLDER_FOOTER])

/-- Concatenation of everything written to the output stream. -/
def strConcat : List String → String
  | [] => ""
  | s :: rest => s ++ strConcat rest

/-- Modelled from the spec: section 6 "Output file format", the per-folder
entry tag — "an entry tag carrying ADD_DATE and LAST_MODIFIED as Unix epoch
seconds and the folder's display name". -/
def specEntryTag (add last : Int) (nm : String) : String :=
  "<DT><H3 ADD_DATE=\"" ++ toString add ++ "\" LAST_MODIFIED=\""
    ++ toString last ++ "\">" ++ nm ++ "</H3>\n"

/-- Modelled from the spec: the "nested list open tag". -/
def specListOpen : String := "<DL><p>\n"

/-- Modelled from the spec: a per-bookmark entry — "anchor tag with HREF,
ADD_DATE, LAST_MODIFIED, and display title as the link text". -/
def specAnchor (href : String) (add last : Int) (title : String) : String :=
  "<DT><A HREF=\"" ++ href ++ "\" ADD_DATE=\"" ++ toString add
    ++ "\" LAST_MODIFIED=\"" ++ toString last ++ "\">" ++ title ++ "</A>\n"

/-- Modelled from the spec: the "nested list close tag". -/
def specListClose : String := "</DL><p>\n"

/-- Modelled from the spec: section 6's whole per-folder block — entry tag,
nested list open tag, one anchor per bookmark (in the serializer's
title-sorted order), nested list close tag. -/
def specFolderBlock (ts : Option String → Int) (f : Folder) : String :=
  specEntryTag (ts f.created) (ts f.modified) (pyStr f.name)
    ++ specListOpen
    ++ strConcat ((sortByTitle f.bookmarks).map (fun bm =>
        specAnchor (pyStr bm.url) (ts bm.created) (ts bm.modified) (pyStr bm.title)))
    ++ specListClose

/-- The attribute names reachable on the `Folder` class: the dataclass fields
of `RESTObject`, `TimestampedObject` and `Folder` plus every method,
classmethod and property those classes define (LarderAPI.py lines 35-174). -/
def Folder.classAttrs : List String :=
  ["id", "created", "modified", "name", "color", "icon", "parent", "links",
   "folders", "bookmarks", "_fetched", "loaded", "subfolders", "created_date",
   "modified_date", "_get_qualified_apiurl", "delete", "load", "save",
   "get_all", "get_bookmarks", "refresh_bookmarks"]

/-- Python attribute lookup on a class: `AttributeError` when the name is not
among the class's attributes. -/
def pyGetattr (attrs : List String) (name : String) : Except PyErr Unit :=
  if name ∈ attrs then .ok () else .error (.attributeError name)

/-- `backup` (LarderBackup.py lines 68-96), followed statement by statement:
line 77 `LarderAPI.init(token, auth_mode)`; lines 78-81 build local
queue/list values and log; line 82 `folders = Folder.get_all_folders()` looks
up the attribute `get_all_folders` on `Folder` — no such attribute exists
(the class defines `get_all`), so the lookup raises `AttributeError` before
the output file is opened or any executor task is submitted.  The `.ok`
continuation below is unreachable (see the theorem on `pyGetattr`). -/
def backup (token : String) (mode : AuthMode) : Except PyErr (List String) :=
  match HttpInterface.init token mode with
  | .error e => .error e
  | .ok _ =>
    match pyGetattr Folder.classAttrs "get_all_folders" with
    | .error e => .error e
    | .ok _ => .ok []

/-- A two-page listing used as a concrete witness input: page 0 holds records
10 and 20 and points at page 1; page 1 holds record 30 and terminates. -/
def samplePages : List (Page Nat) := [⟨[10, 20], some 1⟩, ⟨[30], none⟩]

/-- A bookmark server whose first page is empty and final (witness input). -/
def srvEmpty : Nat → Page Bookmark := fun _ => ⟨[], none⟩

/-- A folder server whose first page is empty and final (witness input). -/
def srvFolder : Nat → Page Folder := fun _ => ⟨[], none⟩

/-- A never-fetched folder with a non-null id (witness input). -/
def sampleFolder : Folder :=
  { id := some "f1", created := some "2019-01-01T00:00:00Z",
    modified := some "2019-01-02T00:00:00Z", name := some "work" }

/-- Bookmark titled "a" (witness input for the sort example). -/
def exA : Bookmark := { title := some "a" }

/-- Bookmark titled "b" (witness input for the sort example). -/
def exB : Bookmark := { title := some "b" }

/-- Bookmark titled "c" (witness input for the sort example). -/
def exC : Bookmark := { title := some "c" }

/-- A tag with no fields set (witness input). -/
def emptyTag : Tag := {}

/-- Shifting the page table past its head page shifts the index window. -/
theorem resultsFrom_shift {α β : Type} (mk : α → β) (p : Page α)
    (ps : List (Page α)) : ∀ n k,
    resultsFrom mk (p :: ps) (k + 1) n = resultsFrom mk ps k n := by
  intro n
  induction n with
  | zero => intro k; rfl
  | succ m ih =>
    intro k
    simp only [resultsFrom, List.getD_cons_succ, ih]

/-- The record count of a full pagination equals the sum of the per-page
result counts. -/
theorem resultsFrom_length {α β : Type} (mk : α → β) :
    ∀ pages : List (Page α),
    (resultsFrom mk pages 0 pages.length).length =
      (pages.map (fun p => p.results.length)).sum := by
  intro pages
  induction pages with
  | nil => rfl
  | cons p ps ih =>
    show (resultsFrom mk (p :: ps) 0 (ps.length + 1)).length = _
    simp only [resultsFrom, List.getD_cons_zero, resultsFrom_shift,
      List.length_append, List.length_map, List.map_cons, List.sum_cons, ih]

/-- Running the pagination loop over a well-formed chain from page `k` with
enough fuel visits exactly pages `k ... n-1`, in order. -/
theorem fetchLoop_chain {α β : Type} (pages : List (Page α)) (mk : α → β)
    (hc : pageChain pages) : ∀ fuel k, k < pages.length →
    pages.length - k ≤ fuel →
    fetchLoop (serverOf pages) mk fuel (some k) =
      (resultsFrom mk pages k (pages.length - k),
       idxFrom k (pages.length - k)) := by
  intro fuel
  induction fuel with
  | zero => intro k hk hf; omega
  | succ f ih =>
    intro k hk hf
    have hnext := hc k hk
    by_cases h2 : k + 1 < pages.length
    · rw [if_pos h2] at hnext
      have hk1 : pages.length - k = (pages.length - (k + 1)) + 1 := by omega
      have hrec := ih (k + 1) h2 (by omega)
      simp only [fetchLoop, serverOf] at hrec ⊢
      rw [hnext, hrec, hk1]
      simp [resultsFrom, idxFrom]
    · rw [if_neg h2] at hnext
      have hk1 : pages.length - k = 1 := by omega
      simp only [fetchLoop, serverOf]
      rw [hnext, hk1]
      simp [fetchLoop, resultsFrom, idxFrom]

/-- Ordinal comparison is reflexive. -/
theorem charsLe_refl : ∀ a : List Char, charsLe a a = true := by
  intro a
  induction a with
  | nil => rfl
  | cons x xs ih => simp [charsLe, ih]

/-- Ordinal comparison is total. -/
theorem charsLe_total : ∀ a b : List Char,
    charsLe a b = true ∨ charsLe b a = true := by
  intro a
  induction a with
  | nil => intro b; exact Or.inl rfl
  | cons x xs ih =>
    intro b
    cases b with
    | nil => exact Or.inr rfl
    | cons y ys =>
      simp only [charsLe]
      rcases Nat.lt_trichotomy x.toNat y.toNat with h | h | h
      · simp [h]
      · simp only [h, Nat.lt_irrefl, if_false]
        exact ih ys
      · simp [h, Nat.lt_asymm h]

/-- Ordinal comparison is transitive. -/
theorem charsLe_trans : ∀ a b c : List Char,
    charsLe a b = true → charsLe b c = true → charsLe a c = true := by
  intro a
  induction a with
  | nil => intro b c _ _; rfl
  | cons x xs ih =>
    intro b c h1 h2
    cases b with
    | nil => simp [charsLe] at h1
    | cons y ys =>
      cases c with
      | nil => simp [charsLe] at h2
      | cons z zs =>
        simp only [charsLe] at h1 h2 ⊢
        split_ifs at h1 h2 ⊢ <;>
          first
          | rfl
          | omega
          | exact ih ys zs h1 h2

/-- The title order is reflexive. -/
theorem titleLe_refl (a : Option String) : titleLe a a = true := by
  cases a with
  | none => rfl
  | some s => exact charsLe_refl s.data

/-- The title order is total. -/
theorem titleLe_total (a b : Option String) :
    titleLe a b = true ∨ titleLe b a = true := by
  cases a with
  | none => exact Or.inl rfl
  | some s =>
    cases b with
    | none => exact Or.inr rfl
    | some t => exact charsLe_total s.data t.data

/-- The title order is transitive. -/
theorem titleLe_trans (a b c : Option String) (h1 : titleLe a b = true)
    (h2 : titleLe b c = true) : titleLe a c = true := by
  cases a with
  | none => rfl
  | some s =>
    cases b with
    | none => simp [titleLe] at h1
    | some t =>
      cases c with
      | none => simp [titleLe] at h2
      | some u => exact charsLe_trans s.data t.data u.data h1 h2

/-- Stable insertion produces a permutation of consing. -/
theorem insertByTitle_perm (b : Bookmark) :
    ∀ l, (insertByTitle b l).Perm (b :: l) := by
  intro l
  induction l with
  | nil => exact List.Perm.refl [b]
  | cons c cs ih =>
    simp only [insertByTitle]
    by_cases h : titleLe b.title c.title = true
    · rw [if_pos h]
    · rw [if_neg h]
      exact (ih.cons c).trans (List.Perm.swap b c cs)

/-- Sorting produces a permutation of the input. -/
theorem sortByTitle_perm : ∀ l, (sortByTitle l).Perm l := by
  intro l
  induction l with
  | nil => exact List.Perm.refl []
  | cons b bs ih =>
    exact (insertByTitle_perm b (sortByTitle bs)).trans (ih.cons b)

/-- Every member of an insertion is the inserted element or an old member. -/
theorem mem_insertByTitle {b x : Bookmark} {l : List Bookmark}
    (h : x ∈ insertByTitle b l) : x = b ∨ x ∈ l := by
  have := (insertByTitle_perm b l).mem_iff.mp h
  exact List.mem_cons.mp this

/-- Stable insertion into a title-sorted list is title-sorted. -/
theorem insertByTitle_sorted (b : Bookmark) :
    ∀ l, titleSorted l → titleSorted (insertByTitle b l) := by
  intro l
  induction l with
  | nil => intro _; simp [insertByTitle, titleSorted]
  | cons c cs ih =>
    intro hs
    rw [titleSorted, List.pairwise_cons] at hs
    obtain ⟨hc, hcs⟩ := hs
    simp only [insertByTitle]
    by_cases h : titleLe b.title c.title = true
    · rw [if_pos h, titleSorted, List.pairwise_cons]
      refine ⟨?_, List.pairwise_cons.mpr ⟨hc, hcs⟩⟩
      intro x hx
      rcases List.mem_cons.mp hx with rfl | hx2
      · exact h
      · exact titleLe_trans _ _ _ h (hc x hx2)
    · rw [if_neg h, titleSorted, List.pairwise_cons]
      refine ⟨?_, ih hcs⟩
      intro x hx
      rcases mem_insertByTitle hx with heq | hx2
      · rw [heq]
        rcases titleLe_total b.title c.title with ht | ht
        · exact absurd ht h
        · exact ht
      · exact hc x hx2

/-- The sort output is title-sorted. -/
theorem sortByTitle_sorted : ∀ l, titleSorted (sortByTitle l) := by
  intro l
  induction l with
  | nil => simp [sortByTitle, titleSorted]
  | cons b bs ih => exact insertByTitle_sorted b (sortByTitle bs) ih

/-- Filtering one title class through a stable insertion: the inserted
bookmark lands in front of the equal-titled entries, after none of them. -/
theorem filter_insertByTitle (t : Option String) (b : Bookmark) :
    ∀ l, (insertByTitle b l).filter (fun c => decide (c.title = t)) =
      if b.title = t then b :: l.filter (fun c => decide (c.title = t))
      else l.filter (fun c => decide (c.title = t)) := by
  intro l
  induction l with
  | nil => by_cases hb : b.title = t <;> simp [insertByTitle, hb]
  | cons c cs ih =>
    simp only [insertByTitle]
    by_cases hbc : titleLe b.title c.title = true
    · rw [if_pos hbc]
      by_cases hb : b.title = t <;> simp [List.filter_cons, hb]
    · rw [if_neg hbc]
      by_cases hb : b.title = t
      · have hcT : ¬ c.title = t := by
          intro hcT
          exact hbc (by rw [hb, hcT]; exact titleLe_refl t)
        simp [List.filter_cons, hcT, ih, hb]
      · simp [List.filter_cons, ih, hb]

/-- Stability of the sort: within every title class the input order is kept
verbatim. -/
theorem sortByTitle_filter (t : Option String) :
    ∀ l : List Bookmark,
    (sortByTitle l).filter (fun c => decide (c.title = t)) =
      l.filter (fun c => decide (c.title = t)) := by
  intro l
  induction l with
  | nil => rfl
  | cons b bs ih =>
    simp only [sortByTitle]
    rw [filter_insertByTitle, ih]
    by_cases hb : b.title = t <;> simp [List.filter_cons, hb]

/-- Dropping the final element of a one-element-extended list. -/
theorem dropLast_append_single {α : Type} (x : α) (l : List α) :
    (l ++ [x]).dropLast = l := by
  simp

/-- Concatenating written strings distributes over list append. -/
theorem strConcat_append : ∀ l1 l2 : List String,
    strConcat (l1 ++ l2) = strConcat l1 ++ strConcat l2 := by
  intro l1 l2
  induction l1 with
  | nil => simp [strConcat]
  | cons a as ih => simp [strConcat, ih, String.append_assoc]

/-- Claim C1 (code-bug evaluation): every invocation of `backup` raises
`AttributeError` at the folder-list step — line 82 reads the attribute
`get_all_folders` from `Folder`, which the class does not define (it defines
`get_all`) — before any folder is fetched, any worker task is submitted, or
any output is written, so no run of the pipeline ever completes. -/
theorem C1_backup_attribute_error (token : String) :
    backup token AuthMode.TOKEN =
      .error (.attributeError "get_all_folders") := by
  rfl

/-- Claim C2: over any nonempty well-formed page chain whose last page has a
null `next`, the paginated fetcher terminates — any fuel of at least the
chain length yields the same completed run, visiting pages `0..n-1` once
each, in order — and returns the typed records of all pages concatenated in
page order and, within a page, in the order received; the record count
equals the sum of the per-page result counts. -/
theorem C2_get_all_pagination (α β : Type) (pages : List (Page α))
    (mk : α → β) (fuel : Nat) (hne : 0 < pages.length)
    (hc : pageChain pages) (hf : pages.length ≤ fuel) :
    fetchLoop (serverOf pages) mk fuel (some 0) =
      (resultsFrom mk pages 0 pages.length, idxFrom 0 pages.length) ∧
    (fetchLoop (serverOf pages) mk fuel (some 0)).1.length =
      (pages.map (fun p => p.results.length)).sum := by
  have h := fetchLoop_chain pages mk hc fuel 0 hne (by omega)
  simp only [Nat.sub_zero] at h
  refine ⟨h, ?_⟩
  rw [h]
  exact resultsFrom_length mk pages

/-- The C2 theorem run at a concrete input: the two-page chain `samplePages`
with fuel 5 and the typing map `Nat.succ`. -/
theorem C2_get_all_pagination_witness :
    (0 < samplePages.length ∧ pageChain samplePages ∧ samplePages.length ≤ 5) ∧
    (fetchLoop (serverOf samplePages) Nat.succ 5 (some 0) =
      (resultsFrom Nat.succ samplePages 0 samplePages.length,
       idxFrom 0 samplePages.length) ∧
     (fetchLoop (serverOf samplePages) Nat.succ 5 (some 0)).1.length =
      (samplePages.map (fun p => p.results.length)).sum) :=
  ⟨⟨by decide, by unfold pageChain; decide, by decide⟩,
   C2_get_all_pagination Nat Nat samplePages Nat.succ 5 (by decide)
     (by unfold pageChain; decide) (by decide)⟩

/-- Claim C3: on a folder not yet loaded, `get_bookmarks` performs exactly
the pagination fetch sequence; a second `get_bookmarks` with no intervening
refresh issues no HTTP request and returns the same cached list; a
subsequent `refresh_bookmarks` performs a new (nonempty) fetch sequence. -/
theorem C3_bookmarks_cached_load (server : Nat → Page Bookmark) (fuel : Nat)
    (f : Folder) (h : f.fetched = false) :
    ((Folder.get_bookmarks server (fuel + 1) f).2.2 =
      (fetchLoop server (fun bm => bm) (fuel + 1) (some 0)).2) ∧
    ((Folder.get_bookmarks server (fuel + 1)
        (Folder.get_bookmarks server (fuel + 1) f).2.1).2.2 = []) ∧
    ((Folder.get_bookmarks server (fuel + 1)
        (Folder.get_bookmarks server (fuel + 1) f).2.1).1 =
      (Folder.get_bookmarks server (fuel + 1) f).1) ∧
    ((Folder.refresh_bookmarks server (fuel + 1)
        (Folder.get_bookmarks server (fuel + 1) f).2.1).2.2 =
      (fetchLoop server (fun bm => bm) (fuel + 1) (some 0)).2) ∧
    ((Folder.refresh_bookmarks server (fuel + 1)
        (Folder.get_bookmarks server (fuel + 1) f).2.1).2.2 ≠ []) := by
  refine ⟨?_, ?_, ?_, ?_, ?_⟩ <;>
    simp [Folder.get_bookmarks, Folder.refresh_bookmarks, h, fetchLoop]

/-- The C3 theorem run at a concrete input: the unfetched folder
`sampleFolder` against the one-empty-page server `srvEmpty`. -/
theorem C3_bookmarks_cached_load_witness :
    sampleFolder.fetched = false ∧
    (((Folder.get_bookmarks srvEmpty (0 + 1) sampleFolder).2.2 =
        (fetchLoop srvEmpty (fun bm => bm) (0 + 1) (some 0)).2) ∧
     ((Folder.get_bookmarks srvEmpty (0 + 1)
         (Folder.get_bookmarks srvEmpty (0 + 1) sampleFolder).2.1).2.2 = []) ∧
     ((Folder.get_bookmarks srvEmpty (0 + 1)
         (Folder.get_bookmarks srvEmpty (0 + 1) sampleFolder).2.1).1 =
       (Folder.get_bookmarks srvEmpty (0 + 1) sampleFolder).1) ∧
     ((Folder.refresh_bookmarks srvEmpty (0 + 1)
         (Folder.get_bookmarks srvEmpty (0 + 1) sampleFolder).2.1).2.2 =
       (fetchLoop srvEmpty (fun bm => bm) (0 + 1) (some 0)).2) ∧
     ((Folder.refresh_bookmarks srvEmpty (0 + 1)
         (Folder.get_bookmarks srvEmpty (0 + 1) sampleFolder).2.1).2.2 ≠ [])) :=
  ⟨rfl, C3_bookmarks_cached_load srvEmpty 0 sampleFolder rfl⟩

/-- Claim C4: the bookmark lines the serializer emits (everything between
its folder header write and folder footer write) are exactly the folder's
bookmarks sorted by title in ascending ordinal order; the sort is stable
(each title class keeps its input order verbatim); on input titles
b, a, c the emitted order is a, b, c. -/
theorem C4_serializer_sort_stable (ts : Option String → Int) (f : Folder) :
    (((_dump_folder_to_output ts f).drop 1).dropLast =
      (sortByTitle f.bookmarks).map (OUTPUT_BM_line ts)) ∧
    titleSorted (sortByTitle f.bookmarks) ∧
    (∀ t, (sortByTitle f.bookmarks).filter (fun c => decide (c.title = t)) =
      f.bookmarks.filter (fun c => decide (c.title = t))) ∧
    ((sortByTitle [exB, exA, exC]).map Bookmark.title =
      [some "a", some "b", some "c"]) := by
  refine ⟨?_, sortByTitle_sorted f.bookmarks,
    fun t => sortByTitle_filter t f.bookmarks, by decide⟩
  simp [_dump_folder_to_output, dropLast_append_single]

/-- Claim C5: the serializer's output for one folder is byte-exactly the
spec's block — entry tag with `ADD_DATE`/`LAST_MODIFIED` as epoch seconds
and the display name, the nested list open tag, one anchor line per bookmark
(HREF, epoch-second dates, title as the link text), and the nested list
close tag — with exactly `bookmarks.length` anchor writes between the two
fixed writes. -/
theorem C5_folder_block_format (ts : Option String → Int) (f : Folder) :
    strConcat (_dump_folder_to_output ts f) = specFolderBlock ts f ∧
    (_dump_folder_to_output ts f).length = f.bookmarks.length + 2 := by
  constructor
  · have hmap : (sortByTitle f.bookmarks).map (OUTPUT_BM_line ts) =
        (sortByTitle f.bookmarks).map (fun bm =>
          specAnchor (pyStr bm.url) (ts bm.created) (ts bm.modified)
            (pyStr bm.title)) := rfl
    simp [_dump_folder_to_output, specFolderBlock, strConcat, strConcat_append,
      OUTPUT_FOLDER_HEADER_line, specEntryTag, specListOpen, specListClose,
      OUTPUT_FOLDER_FOOTER, hmap, String.append_assoc]
  · have hlen := (sortByTitle_perm f.bookmarks).length_eq
    simp [_dump_folder_to_output, hlen]

/-- Claim C6 counterexample: a 404 response whose body is valid JSON.
`HttpInterface.get` returns the decoded object normally even though the
status is not 2xx — the claim's "never returns normally for a non-success
response" is false of the code (`get`, unlike `delete` and `post`, performs
no status check). -/
theorem C6_get_counterexample :
    (HttpInterface.get Nat AuthMode.TOKEN (some "tok")
        (fun _ => ⟨404, some 7⟩) "https://larder.io/x" = .ok 7) ∧
    (404 < 200 ∨ 299 < 404) := by
  exact ⟨rfl, by omega⟩

/-- Claim C6 as amended: with a configured token, `HttpInterface.get` never
inspects the response status — for every status code it returns the decoded
JSON object whenever the body decodes, and raises exactly when the body is
undecodable. -/
theorem C6_get_ignores_status (J : Type) (j : J) (s s2 : Nat) (url tok : String)
    (h : tok ≠ "") :
    (HttpInterface.get J AuthMode.TOKEN (some tok)
        (fun _ => ⟨s, some j⟩) url = .ok j) ∧
    (HttpInterface.get J AuthMode.TOKEN (some tok)
        (fun _ => ⟨s2, none⟩) url = .error .jsonDecodeError) := by
  constructor <;>
    simp [HttpInterface.get, HttpInterface.build_headers, Response.json, h]

/-- The amended C6 theorem run at a concrete input: token "tok", a 500
response with decodable body 3, and a 200 response with undecodable body. -/
theorem C6_get_ignores_status_witness :
    ("tok" ≠ "") ∧
    ((HttpInterface.get Nat AuthMode.TOKEN (some "tok")
        (fun _ => ⟨500, some 3⟩) "u" = .ok 3) ∧
     (HttpInterface.get Nat AuthMode.TOKEN (some "tok")
        (fun _ => ⟨200, none⟩) "u" = .error .jsonDecodeError)) :=
  ⟨by decide, C6_get_ignores_status Nat 3 500 200 "u" "tok" (by decide)⟩

/-- Claim C7: saving a `Tag` whose name is `None` raises `ValueError` with
no network traffic whatsoever; a tag with a name proceeds to the normal
`RESTObject.save` path, issuing exactly the one POST of that path. -/
theorem C7_tag_name_validation
    (server : String → Except PyErr (List (String × String)))
    (i cr mo c : Option String) (nm : String) :
    (Tag.save server ⟨i, cr, mo, none, c⟩ =
      (.error (.valueError "You cannot save a tag without a name"), [])) ∧
    ((Tag.save server ⟨i, cr, mo, some nm, c⟩).2 =
      [NetEvent.post (RESTObject.saveUrl "Tag" i)]) ∧
    ((Tag.save server ⟨i, cr, mo, some nm, c⟩).1 =
      (RESTObject.save "Tag" Tag.id Tag.setField server ⟨i, cr, mo, some nm, c⟩).1) := by
  refine ⟨by simp [Tag.save], ?_, by simp [Tag.save]⟩
  simp only [Tag.save, RESTObject.save]
  cases server (RESTObject.saveUrl "Tag" i) <;> simp

/-- Claim C8 (code-bug evaluation): `Bookmark.load` and `Tag.load` do reject
the operation immediately and issue no network call, but the error actually
raised is `TypeError: 'NotImplementedType' object is not callable` — the
source writes `raise NotImplemented(...)` instead of `NotImplementedError`,
so the descriptive message is never delivered as the claim requires. -/
theorem C8_load_wrong_error (b : Bookmark) (t : Tag) :
    (Bookmark.load b =
      (.error (.typeError "NotImplementedType object is not callable"), [])) ∧
    (Tag.load t =
      (.error (.typeError "NotImplementedType object is not callable"), [])) ∧
    (∀ m, (Bookmark.load b).1 ≠ .error (.notImplementedError m)) ∧
    (∀ m, (Tag.load t).1 ≠ .error (.notImplementedError m)) := by
  refine ⟨rfl, rfl, ?_, ?_⟩ <;> intro m <;> simp [Bookmark.load, Tag.load]

/-- Claim C9: on any folder whose id is not a key of the module folder
cache — its own id being non-null does not help — `Folder.load` raises
`EmptyObjectException`; `Folder.get_all` leaves the cache untouched (its
cache assignment binds a local name); only `Folder.save` stores an entry,
and after a successful save the saved instance is retrievable under its
(post-response) id. -/
theorem C9_folder_cache_discipline (cache : FolderCache) (f : Folder)
    (server : Nat → Page Folder) (fuel : Nat)
    (resp : List (String × String))
    (h : cacheLookup cache f.id = none) :
    (Folder.load cache f =
      .error (.emptyObject "Cannot load an object without an ID")) ∧
    ((Folder.get_all server fuel cache).2 = cache) ∧
    ((Folder.save (fun _ => .ok resp) cache f).2.1 =
      ((resp.foldl Folder.setField f).id, resp.foldl Folder.setField f) :: cache) ∧
    (cacheLookup ((Folder.save (fun _ => .ok resp) cache f).2.1)
        (resp.foldl Folder.setField f).id = some (resp.foldl Folder.setField f)) := by
  refine ⟨?_, rfl, ?_, ?_⟩
  · simp [Folder.load, h]
  · simp [Folder.save, RESTObject.save]
  · simp [Folder.save, RESTObject.save, cacheLookup]

/-- The C9 theorem run at a concrete input: the empty cache, the unsaved
folder `sampleFolder` (which has the non-null id "f1"), and a save response
assigning id "f9". -/
theorem C9_folder_cache_discipline_witness :
    (cacheLookup [] sampleFolder.id = none) ∧
    ((Folder.load [] sampleFolder =
        .error (.emptyObject "Cannot load an object without an ID")) ∧
     ((Folder.get_all srvFolder 1 []).2 = []) ∧
     ((Folder.save (fun _ => .ok [("id", "f9")]) [] sampleFolder).2.1 =
       (([("id", "f9")].foldl Folder.setField sampleFolder).id,
        [("id", "f9")].foldl Folder.setField sampleFolder) :: []) ∧
     (cacheLookup ((Folder.save (fun _ => .ok [("id", "f9")]) [] sampleFolder).2.1)
        ([("id", "f9")].foldl Folder.setField sampleFolder).id =
       some ([("id", "f9")].foldl Folder.setField sampleFolder))) :=
  ⟨rfl, C9_folder_cache_discipline [] sampleFolder srvFolder 1
    [("id", "f9")] rfl⟩

/-- Claim C10: deleting any entity whose id is `None` — a never-persisted
`Folder`, `Bookmark` or `Tag` — performs no HTTP request, raises nothing,
and leaves the entity unchanged. -/
theorem C10_delete_without_id_noop (A : Type) (cls : String)
    (getId : A → Option String) (status : String → Nat) (x : A)
    (h : getId x = none) :
    RESTObject.delete cls getId status x = (x, .ok (), []) := by
  simp [RESTObject.delete, h]

/-- The C10 theorem run at a concrete input: the id-less `emptyTag` under a
server that would answer 204. -/
theorem C10_delete_without_id_noop_witness :
    (Tag.id emptyTag = none) ∧
    RESTObject.delete "Tag" Tag.id (fun _ => 204) emptyTag =
      (emptyTag, .ok (), []) :=
  ⟨rfl, C10_delete_without_id_noop Tag "Tag" Tag.id (fun _ => 204) emptyTag rfl⟩
